import Mathlib

/-!
Verification of the data-preparation and aggregation pipeline of
`src/app.py` (ProyectoTalentoTech): a shallow embedding of the loading and
cleaning step, the `value_counts`-style categorical aggregates, the yearly
series with its year-over-year deltas, the geographic breakdown and the
filtered top-10 reason view, together with theorems settling the claims of
the specification about them.

A raw table row is a list of optional cells (`none` models an empty / NaN
cell of the CSV); a cleaned row is a `Record` with the seven analysis
columns.  Counting aggregates are modelled over `List Record`; pandas
`value_counts` is modelled as: distinct values in first-appearance order,
paired with their occurrence counts, stably sorted by descending count.
-/

namespace App

/-- One cleaned row of the table: the seven columns the analysis reads
(`Año del hecho` plus the six categorical columns coerced to string). -/
structure Record where
  anio : Int
  cicloVital : String
  sexo : String
  departamento : String
  escenario : String
  mecanismo : String
  razon : String
deriving DecidableEq, Repr

/-- The cleaned table: an ordered collection of complete records. -/
abbrev Dataset := List Record

/-- The sentinel literal marking an unreported categorical value. -/
def sinInformacion : String := "Sin informacion"

/-- Distinct elements of a list in first-appearance order, the order pandas
`Series.unique` and the grouping step of `value_counts` produce
(`seen` accumulates the values already emitted). -/
def uniquesAux {α : Type} [DecidableEq α] (seen : List α) : List α → List α
  | [] => []
  | a :: l => if a ∈ seen then uniquesAux seen l else a :: uniquesAux (a :: seen) l

/-- Distinct elements of a list in first-appearance order. -/
def uniques {α : Type} [DecidableEq α] (l : List α) : List α := uniquesAux [] l

/-- Descending-count order used to sort `value_counts` output; the sort is
stable, so tied counts keep the first-appearance order of the values. -/
def countDesc {α : Type} : (α × Nat) → (α × Nat) → Prop := fun p q => q.2 ≤ p.2

instance {α : Type} : DecidableRel (@countDesc α) := fun p q => Nat.decLe q.2 p.2

instance {α : Type} : IsTotal (α × Nat) countDesc := ⟨fun p q => Nat.le_total q.2 p.2⟩

instance {α : Type} : IsTrans (α × Nat) countDesc := ⟨fun _ _ _ h1 h2 => Nat.le_trans h2 h1⟩

/-- Model of `Series.value_counts()`: one `(value, count)` pair per distinct
value of the input, sorted by descending count. -/
def value_counts (vals : List String) : List (String × Nat) :=
  List.insertionSort countDesc ((uniques vals).map (fun v => (v, vals.count v)))

/-- The categorical-aggregation pattern of the source, with an explicit
exclusion list applied to the rows before counting: `df_ciclo` is
`count_by ds Record.cicloVital []`, and the series truncated by
`df_razones_filtrado` is `count_by ds Record.razon [sinInformacion]`. -/
def count_by (ds : Dataset) (field : Record → String) (excl : List String) :
    List (String × Nat) :=
  value_counts ((ds.filter (fun r => !excl.contains (field r))).map field)

/-- Line 37: counts of the life-cycle column. -/
def df_ciclo (ds : Dataset) : List (String × Nat) :=
  value_counts (ds.map Record.cicloVital)

/-- Line 81: top-10 scene-of-event counts. -/
def df_escenario (ds : Dataset) : List (String × Nat) :=
  (value_counts (ds.map Record.escenario)).take 10

/-- Line 93: top-10 reason counts after dropping the sentinel rows. -/
def df_razones_filtrado (ds : Dataset) : List (String × Nat) :=
  (value_counts ((ds.filter (fun r => r.razon != sinInformacion)).map Record.razon)).take 10

/-- Number of rows whose year is `y`. -/
def cuenta (ds : Dataset) (y : Int) : Nat :=
  (ds.filter (fun r => r.anio == y)).length

/-- Lines 49–50, `df.groupby('Año del hecho').size()` sorted by year: one
`(year, count)` entry per distinct year present in the data, ascending. -/
def df_temporal (ds : Dataset) : List (Int × Nat) :=
  (List.insertionSort (· ≤ ·) (uniques (ds.map Record.anio))).map (fun y => (y, cuenta ds y))

/-- Line 53: the configured subset of years the indicator cards show. -/
def anios_indicadores : List Int := [2021, 2022, 2023, 2024]

/-- Lines 57–61, the `indicadores` dict: the count of the year in
`df_temporal` when the year occurs there, otherwise 0. -/
def indicadores (ds : Dataset) (anio : Int) : Nat :=
  match (df_temporal ds).find? (fun p => p.1 == anio) with
  | some p => p.2
  | none => 0

/-- Lines 64–72, the `deltas` dict: 0 for the first configured year; for a
later configured year, the relative delta against the previous configured
year when that count is positive, otherwise 0. -/
def deltas (ds : Dataset) : List (Int × ℚ) :=
  anios_indicadores.enum.map (fun e =>
    (e.2,
      if e.1 = 0 then (0 : ℚ)
      else
        let prev := anios_indicadores.getD (e.1 - 1) 0
        if indicadores ds prev > 0 then
          ((indicadores ds e.2 : ℚ) - (indicadores ds prev : ℚ)) / (indicadores ds prev : ℚ)
        else (0 : ℚ)))

/-- Lines 402–405: total variation over the period,
`((casos_final - casos_inicial) / casos_inicial) * 100` over the first and
last entries of `df_temporal`.  Indexing an empty series and dividing by
zero are Python runtime errors; the embedding returns them as
`Except.error`. -/
def variacion_total (ds : Dataset) : Except String ℚ :=
  match (df_temporal ds).head?, (df_temporal ds).getLast? with
  | some p0, some p1 =>
      if p0.2 = 0 then .error "ZeroDivisionError"
      else .ok ((((p1.2 : ℚ) - (p0.2 : ℚ)) / (p0.2 : ℚ)) * 100)
  | _, _ => .error "IndexError"

/-- Line 30: the rows whose department is not the sentinel. -/
def df_con_depto (ds : Dataset) : Dataset :=
  ds.filter (fun r => r.departamento != sinInformacion)

/-- Line 31: `nunique` of the department column of `df_con_depto`. -/
def num_departamentos (ds : Dataset) : Nat :=
  (uniques ((df_con_depto ds).map Record.departamento)).length

/-- Lines 77–78: the distinct department values (sentinel included),
alphabetically sorted — the selectable universe of the geographic view. -/
def lista_deptos (ds : Dataset) : List String :=
  List.insertionSort (· ≤ ·) (uniques (ds.map Record.departamento))

/-- Lexicographic order on two-column groupby keys. -/
def keyLex {α β : Type} [LT α] [DecidableEq α] [LE β] : (α × β) → (α × β) → Prop :=
  fun a b => a.1 < b.1 ∨ (a.1 = b.1 ∧ a.2 ≤ b.2)

instance {α β : Type} [LT α] [DecidableEq α] [LE β]
    [DecidableRel ((· < ·) : α → α → Prop)] [DecidableRel ((· ≤ ·) : β → β → Prop)] :
    DecidableRel (@keyLex α β _ _ _) := fun a b =>
  inferInstanceAs (Decidable (a.1 < b.1 ∨ (a.1 = b.1 ∧ a.2 ≤ b.2)))

/-- Line 46, `df.groupby(['Ciclo Vital', 'Sexo de la victima']).size()`: the
observed (life-cycle, sex) key pairs, each with its row count. -/
def df_genero_ciclo (ds : Dataset) : List ((String × String) × Nat) :=
  (List.insertionSort keyLex (uniques (ds.map (fun r => (r.cicloVital, r.sexo))))).map
    (fun k => (k, (ds.filter (fun r => (r.cicloVital, r.sexo) == k)).length))

/-- Line 75, `df.groupby(['Departamento del hecho DANE', 'Año del hecho']).size()`:
the observed (department, year) key pairs, each with its row count. -/
def df_depto_anio (ds : Dataset) : List ((String × Int) × Nat) :=
  (List.insertionSort keyLex (uniques (ds.map (fun r => (r.departamento, r.anio))))).map
    (fun k => (k, (ds.filter (fun r => (r.departamento, r.anio) == k)).length))

/-- Lines 549–564: the reactive reason view.  Applies the life-cycle and sex
equality filters to the rows (the literal `Todos` meaning no filter on that
dimension), then counts reasons — dropping the sentinel rows unless
`incluirSinInfo` — and keeps the top 10. -/
def df_razones_dinamico (ds : Dataset) (cicloSel generoSel : String)
    (incluirSinInfo : Bool) : List (String × Nat) :=
  let df1 := if cicloSel = "Todos" then ds else ds.filter (fun r => r.cicloVital == cicloSel)
  let df2 := if generoSel = "Todos" then df1 else df1.filter (fun r => r.sexo == generoSel)
  if incluirSinInfo then (value_counts (df2.map Record.razon)).take 10
  else (value_counts ((df2.filter (fun r => r.razon != sinInformacion)).map Record.razon)).take 10

/-- A raw delimited table as `read_csv` sees it: the header names and rows of
optional cells (`none` models an empty / NaN cell). -/
structure RawTable where
  header : List String
  rows : List (List (Option String))

/-- Load-time failures of `cargar_datos`. -/
inductive LoadError where
  | encodingError
  | schemaError
deriving DecidableEq, Repr

/-- Lines 17–18: the six categorical columns `cargar_datos` coerces to `str`. -/
def columnas_str : List String :=
  ["Departamento del hecho DANE", "Ciclo Vital", "Sexo de la victima",
   "Escenario del Hecho", "Mecanismo Causal de la Lesion Fatal", "Razon del Suicidio"]

/-- A row `dropna` keeps: every cell present. -/
def rowComplete (row : List (Option String)) : Bool := row.all Option.isSome

/-- Lines 10–23, `cargar_datos`: a `none` input models a file that does not
decode as BOM-prefixed UTF-8 (`read_csv` raises, an encoding error); on a
decoded table, `dropna` keeps exactly the complete rows, and the
`astype(str)` loop raises `KeyError` — a schema error — when one of the six
categorical columns is absent from the header.  Failures abort the load
with no partial result. -/
def cargar_datos (input : Option RawTable) : Except LoadError (List (List String)) :=
  match input with
  | none => .error .encodingError
  | some t =>
      if columnas_str.all (fun c => t.header.contains c) then
        .ok ((t.rows.filter rowComplete).map (fun row => row.filterMap id))
      else .error .schemaError

/-- Modelled from the spec: §6 requires the header to name the year column
and the six categorical columns; the source reads exactly these seven by
name. -/
def required_columns : List String := "Año del hecho" :: columnas_str

/-- The tie-break the claim about top-N prescribes — descending count, then
ascending key (the key order compares the character lists of the keys, the
order underlying the order on strings) — as a second definition following
the words of the spec, for comparison with `value_counts`, which follows
the source. -/
def specOrder : (String × Nat) → (String × Nat) → Prop :=
  fun p q => q.2 < p.2 ∨ (p.2 = q.2 ∧ p.1.data ≤ q.1.data)

instance : DecidableRel specOrder := fun p q =>
  inferInstanceAs (Decidable (q.2 < p.2 ∨ (p.2 = q.2 ∧ p.1.data ≤ q.1.data)))

/-- Counting aggregate ordered exactly as the claim words it: by descending
count, ties by ascending key. -/
def value_counts_spec (vals : List String) : List (String × Nat) :=
  List.insertionSort specOrder ((uniques vals).map (fun v => (v, vals.count v)))

/-- A small concrete dataset used to instantiate the universally quantified
theorems below; its second record carries the sentinel in the department and
reason columns. -/
def dsW : Dataset :=
  [⟨2021, "Adulto", "Hombre", "Antioquia", "Vivienda", "Asfixia", "Conflicto de pareja"⟩,
   ⟨2022, "Adulto", "Mujer", "Sin informacion", "Vivienda", "Asfixia", "Sin informacion"⟩]

/-- Concrete dataset whose two scene values are tied in count and occur in
reverse alphabetical order. -/
def dsC9 : Dataset :=
  [⟨2021, "Adulto", "Hombre", "Antioquia", "b", "Asfixia", "X"⟩,
   ⟨2021, "Adulto", "Hombre", "Antioquia", "a", "Asfixia", "X"⟩]

/-- Concrete raw table with a complete first row and a second row missing its
last cell. -/
def t0 : RawTable :=
  ⟨columnas_str, [[some "a", some "b"], [some "a", none]]⟩

/-- Concrete raw table with an empty header. -/
def t1 : RawTable := ⟨[], []⟩

/-- Concrete raw table whose header has the six categorical columns but no
year column. -/
def tNoYear : RawTable := ⟨columnas_str, []⟩

/-! ### Supporting lemmas -/

theorem mem_uniquesAux {α : Type} [DecidableEq α] (a : α) (l : List α) :
    ∀ seen : List α, a ∈ uniquesAux seen l ↔ (a ∈ l ∧ a ∉ seen) := by
  induction l with
  | nil => intro seen; simp [uniquesAux]
  | cons b t ih =>
    intro seen
    by_cases hb : b ∈ seen
    · rw [show uniquesAux seen (b :: t) = uniquesAux seen t from by simp [uniquesAux, hb]]
      rw [ih seen]
      constructor
      · rintro ⟨h1, h2⟩; exact ⟨List.mem_cons_of_mem _ h1, h2⟩
      · rintro ⟨h1, h2⟩
        rcases List.mem_cons.mp h1 with h | h
        · subst h; exact absurd hb h2
        · exact ⟨h, h2⟩
    · rw [show uniquesAux seen (b :: t) = b :: uniquesAux (b :: seen) t from
        by simp [uniquesAux, hb]]
      constructor
      · intro h
        rcases List.mem_cons.mp h with h | h
        · subst h; exact ⟨List.mem_cons_self _ _, hb⟩
        · rcases (ih (b :: seen)).mp h with ⟨h1, h2⟩
          exact ⟨List.mem_cons_of_mem _ h1, fun hs => h2 (List.mem_cons_of_mem _ hs)⟩
      · rintro ⟨h1, h2⟩
        rcases List.mem_cons.mp h1 with h | h
        · subst h; exact List.mem_cons_self _ _
        · by_cases hab : a = b
          · subst hab; exact List.mem_cons_self _ _
          · refine List.mem_cons_of_mem _ ((ih (b :: seen)).mpr ⟨h, ?_⟩)
            intro hs
            rcases List.mem_cons.mp hs with h3 | h3
            · exact hab h3
            · exact h2 h3

theorem nodup_uniquesAux {α : Type} [DecidableEq α] (l : List α) :
    ∀ seen : List α, (uniquesAux seen l).Nodup := by
  induction l with
  | nil => intro seen; simp [uniquesAux]
  | cons b t ih =>
    intro seen
    by_cases hb : b ∈ seen
    · rw [show uniquesAux seen (b :: t) = uniquesAux seen t from by simp [uniquesAux, hb]]
      exact ih seen
    · rw [show uniquesAux seen (b :: t) = b :: uniquesAux (b :: seen) t from
        by simp [uniquesAux, hb]]
      refine List.nodup_cons.mpr ⟨?_, ih (b :: seen)⟩
      intro hmem
      exact ((mem_uniquesAux b t (b :: seen)).mp hmem).2 (List.mem_cons_self b seen)

theorem mem_uniques {α : Type} [DecidableEq α] {a : α} {l : List α} :
    a ∈ uniques l ↔ a ∈ l := by
  rw [uniques, mem_uniquesAux]
  simp

theorem nodup_uniques {α : Type} [DecidableEq α] (l : List α) : (uniques l).Nodup :=
  nodup_uniquesAux l []

theorem uniques_perm_dedup {α : Type} [DecidableEq α] (l : List α) :
    (uniques l).Perm l.dedup :=
  (List.perm_ext_iff_of_nodup (nodup_uniques l) (List.nodup_dedup l)).mpr
    (fun _ => by rw [mem_uniques, List.mem_dedup])

theorem uniquesAux_filter {α : Type} [DecidableEq α] (p : α → Bool) (l : List α) :
    ∀ seen : List α, uniquesAux (seen.filter p) (l.filter p) = (uniquesAux seen l).filter p := by
  induction l with
  | nil => intro seen; simp [uniquesAux]
  | cons b t ih =>
    intro seen
    by_cases hpb : p b = true
    · by_cases hb : b ∈ seen
      · have hbf : b ∈ seen.filter p := List.mem_filter.mpr ⟨hb, hpb⟩
        rw [show (b :: t).filter p = b :: t.filter p from by simp [List.filter_cons, hpb]]
        rw [show uniquesAux (seen.filter p) (b :: t.filter p)
            = uniquesAux (seen.filter p) (t.filter p) from by simp [uniquesAux, hbf]]
        rw [ih seen]
        rw [show uniquesAux seen (b :: t) = uniquesAux seen t from by simp [uniquesAux, hb]]
      · have hbf : b ∉ seen.filter p := fun hmem => hb (List.mem_filter.mp hmem).1
        rw [show (b :: t).filter p = b :: t.filter p from by simp [List.filter_cons, hpb]]
        rw [show uniquesAux (seen.filter p) (b :: t.filter p)
            = b :: uniquesAux (b :: seen.filter p) (t.filter p) from by simp [uniquesAux, hbf]]
        rw [show b :: seen.filter p = (b :: seen).filter p from by simp [List.filter_cons, hpb]]
        rw [ih (b :: seen)]
        rw [show uniquesAux seen (b :: t) = b :: uniquesAux (b :: seen) t from
          by simp [uniquesAux, hb]]
        simp [List.filter_cons, hpb]
    · have hfc : (b :: t).filter p = t.filter p := by
        simp [List.filter_cons, hpb]
      rw [hfc]
      by_cases hb : b ∈ seen
      · rw [ih seen]
        rw [show uniquesAux seen (b :: t) = uniquesAux seen t from by simp [uniquesAux, hb]]
      · rw [show uniquesAux seen (b :: t) = b :: uniquesAux (b :: seen) t from
          by simp [uniquesAux, hb]]
        rw [show seen.filter p = (b :: seen).filter p from
          by simp [List.filter_cons, hpb]]
        rw [ih (b :: seen)]
        simp [List.filter_cons, hpb]

theorem uniques_filter {α : Type} [DecidableEq α] (p : α → Bool) (l : List α) :
    uniques (l.filter p) = (uniques l).filter p := by
  have h := uniquesAux_filter p l []
  simpa [uniques] using h

theorem value_counts_perm (vals : List String) :
    (value_counts vals).Perm ((uniques vals).map (fun v => (v, vals.count v))) :=
  List.perm_insertionSort countDesc _

theorem mem_value_counts {vals : List String} {p : String × Nat} :
    p ∈ value_counts vals ↔ p.1 ∈ vals ∧ p.2 = vals.count p.1 := by
  rw [(value_counts_perm vals).mem_iff, List.mem_map]
  constructor
  · rintro ⟨v, hv, rfl⟩
    exact ⟨mem_uniques.mp hv, rfl⟩
  · rintro ⟨h1, h2⟩
    exact ⟨p.1, mem_uniques.mpr h1, Prod.ext rfl h2.symm⟩

theorem sum_value_counts (vals : List String) :
    ((value_counts vals).map Prod.snd).sum = vals.length := by
  rw [((value_counts_perm vals).map Prod.snd).sum_eq, List.map_map]
  rw [show (Prod.snd ∘ fun v => (v, vals.count v)) = fun v => vals.count v from rfl]
  rw [((uniques_perm_dedup vals).map (fun v => vals.count v)).sum_eq]
  exact List.sum_map_count_dedup_eq_length vals

theorem length_filter_partition {α : Type} (p : α → Bool) (l : List α) :
    (l.filter p).length + (l.filter (fun a => !p a)).length = l.length := by
  have h := (List.filter_append_perm p l).length_eq
  simpa using h

theorem length_filter_key_pos {κ : Type} [BEq κ] [LawfulBEq κ] (ds : Dataset)
    (g : Record → κ) {k : κ} (h : k ∈ ds.map g) :
    1 ≤ (ds.filter (fun r => g r == k)).length := by
  rcases List.mem_map.mp h with ⟨r, hr, rfl⟩
  have hmem : r ∈ ds.filter (fun x => g x == g r) := List.mem_filter.mpr ⟨hr, by simp⟩
  exact List.length_pos.mpr (List.ne_nil_of_mem hmem)

theorem cuenta_pos_iff (ds : Dataset) (y : Int) :
    0 < cuenta ds y ↔ ∃ r ∈ ds, r.anio = y := by
  rw [cuenta]
  constructor
  · intro h
    rcases List.exists_mem_of_length_pos h with ⟨r, hr⟩
    have hm := List.mem_filter.mp hr
    exact ⟨r, hm.1, by simpa using hm.2⟩
  · rintro ⟨r, hr, hy⟩
    have hmem : r ∈ ds.filter (fun x => x.anio == y) := List.mem_filter.mpr ⟨hr, by simp [hy]⟩
    exact List.length_pos.mpr (List.ne_nil_of_mem hmem)

theorem df_temporal_map_fst (ds : Dataset) :
    (df_temporal ds).map Prod.fst
      = List.insertionSort (· ≤ ·) (uniques (ds.map Record.anio)) := by
  rw [df_temporal, List.map_map]
  rw [show (Prod.fst ∘ fun y => (y, cuenta ds y)) = id from rfl]
  exact List.map_id _

theorem mem_anios_df_temporal {ds : Dataset} {y : Int} :
    y ∈ (df_temporal ds).map Prod.fst ↔ ∃ r ∈ ds, r.anio = y := by
  rw [df_temporal_map_fst, (List.perm_insertionSort _ _).mem_iff, mem_uniques]
  exact List.mem_map

theorem mem_df_temporal {ds : Dataset} {p : Int × Nat} (h : p ∈ df_temporal ds) :
    p.2 = cuenta ds p.1 ∧ p.1 ∈ ds.map Record.anio := by
  rcases List.mem_map.mp h with ⟨y, hy, rfl⟩
  exact ⟨rfl, mem_uniques.mp ((List.perm_insertionSort _ _).mem_iff.mp hy)⟩

theorem indicadores_eq_cuenta (ds : Dataset) (y : Int) :
    indicadores ds y = cuenta ds y := by
  cases hf : (df_temporal ds).find? (fun p => p.1 == y) with
  | some p =>
    have hp1 : p.1 = y := by simpa using List.find?_some hf
    have hcount := (mem_df_temporal (List.mem_of_find?_eq_some hf)).1
    rw [indicadores, hf]
    show p.2 = cuenta ds y
    rw [hcount, hp1]
  | none =>
    rw [indicadores, hf]
    show (0 : Nat) = cuenta ds y
    by_contra hne
    have hpos : 0 < cuenta ds y := Nat.pos_of_ne_zero (fun h0 => hne h0.symm)
    have hy : y ∈ (df_temporal ds).map Prod.fst :=
      mem_anios_df_temporal.mpr ((cuenta_pos_iff ds y).mp hpos)
    rcases List.mem_map.mp hy with ⟨p, hp, hp1⟩
    have hnot := List.find?_eq_none.mp hf p hp
    simp [hp1] at hnot

theorem deltas_expand (ds : Dataset) :
    deltas ds = [(2021, (0 : ℚ)),
      (2022, if indicadores ds 2021 > 0 then
        ((indicadores ds 2022 : ℚ) - (indicadores ds 2021 : ℚ)) / (indicadores ds 2021 : ℚ)
        else 0),
      (2023, if indicadores ds 2022 > 0 then
        ((indicadores ds 2023 : ℚ) - (indicadores ds 2022 : ℚ)) / (indicadores ds 2022 : ℚ)
        else 0),
      (2024, if indicadores ds 2023 > 0 then
        ((indicadores ds 2024 : ℚ) - (indicadores ds 2023 : ℚ)) / (indicadores ds 2023 : ℚ)
        else 0)] := rfl

theorem length_filterMap_id_of_complete (row : List (Option String))
    (h : rowComplete row = true) : (row.filterMap id).length = row.length := by
  induction row with
  | nil => simp
  | cons c tl ih =>
    rw [rowComplete, List.all_cons, Bool.and_eq_true] at h
    cases c with
    | none => simp at h
    | some a =>
      have := ih h.2
      simp [List.filterMap_cons, this]

/-! ### Claims -/

/-- C2: for every dataset, field and exclusion list, the counts produced by
`count_by` sum to the number of rows whose field value is not excluded; and
excluding a single value and then adding back that value's row count
reconciles exactly to the unfiltered total (the number of rows, every row
carrying a value for the field). -/
theorem count_by_reconcilia (ds : Dataset) (field : Record → String) (excl : List String) :
    ((count_by ds field excl).map Prod.snd).sum
      = (ds.filter (fun r => !excl.contains (field r))).length
    ∧ ∀ v : String,
        ((count_by ds field [v]).map Prod.snd).sum
          + (ds.filter (fun r => field r == v)).length = ds.length := by
  constructor
  · rw [count_by, sum_value_counts, List.length_map]
  · intro v
    rw [count_by, sum_value_counts, List.length_map]
    have hfun : (fun r : Record => !(List.contains [v] (field r)))
        = (fun r : Record => !(field r == v)) := by
      funext r
      cases h : field r == v <;> simp_all [List.contains_cons, List.contains_nil]
    rw [hfun, Nat.add_comm]
    exact length_filter_partition (fun r => field r == v) ds

/-- C5: `indicadores` agrees with the per-year row count (0 for a year absent
from the series); the year-over-year delta of the first configured year 2021
is 0 regardless of the data, and for each later configured year the delta is
the relative change against the previous configured year when that count is
positive, 0 otherwise. -/
theorem deltas_segun_indicadores (ds : Dataset) :
    (∀ y : Int, indicadores ds y = cuenta ds y)
    ∧ (deltas ds).lookup 2021 = some 0
    ∧ (deltas ds).lookup 2022 = some (if cuenta ds 2021 > 0 then
        ((cuenta ds 2022 : ℚ) - (cuenta ds 2021 : ℚ)) / (cuenta ds 2021 : ℚ) else 0)
    ∧ (deltas ds).lookup 2023 = some (if cuenta ds 2022 > 0 then
        ((cuenta ds 2023 : ℚ) - (cuenta ds 2022 : ℚ)) / (cuenta ds 2022 : ℚ) else 0)
    ∧ (deltas ds).lookup 2024 = some (if cuenta ds 2023 > 0 then
        ((cuenta ds 2024 : ℚ) - (cuenta ds 2023 : ℚ)) / (cuenta ds 2023 : ℚ) else 0) := by
  refine ⟨indicadores_eq_cuenta ds, ?_, ?_, ?_, ?_⟩ <;>
    · simp only [deltas_expand, indicadores_eq_cuenta]
      rfl

/-- C6: the total-period variation divides by the count of the first year of
the series with no guard of any kind: on a dataset whose cleaned table is
empty the computation fails with an index error instead of returning a
sentinel, and on every nonempty dataset the division happens unguarded — it
is only safe because every series entry counts at least one row, so the
zero-divisor branch is unreachable. -/
theorem variacion_total_sin_guarda :
    variacion_total ([] : Dataset) = Except.error "IndexError"
    ∧ ∀ (ds : Dataset) (p0 pn : Int × Nat),
        (df_temporal ds).head? = some p0 → (df_temporal ds).getLast? = some pn →
        variacion_total ds = Except.ok ((((pn.2 : ℚ) - (p0.2 : ℚ)) / (p0.2 : ℚ)) * 100) := by
  refine ⟨rfl, ?_⟩
  intro ds p0 pn h0 hn
  have hmem : p0 ∈ df_temporal ds := List.mem_of_mem_head? (by simp [h0])
  rcases mem_df_temporal hmem with ⟨h2, h1⟩
  have hpos : 0 < p0.2 := by
    rw [h2]
    exact (cuenta_pos_iff ds p0.1).mpr (List.mem_map.mp h1)
  simp only [variacion_total, h0, hn]
  rw [if_neg hpos.ne']

theorem variacion_total_sin_guarda_witness :
    (df_temporal dsW).head? = some (2021, 1)
    ∧ (df_temporal dsW).getLast? = some (2022, 1)
    ∧ variacion_total dsW
        = Except.ok (((((1 : Nat) : ℚ) - ((1 : Nat) : ℚ)) / ((1 : Nat) : ℚ)) * 100) :=
  ⟨by decide, by decide,
   variacion_total_sin_guarda.2 dsW (2021, 1) (2022, 1) (by decide) (by decide)⟩

/-- C7: the year column of `df_temporal` is strictly increasing (hence free of
duplicates), and a year occurs in it exactly when some row of the dataset has
that year — no zero-count gap-filling. -/
theorem df_temporal_orden_estricto (ds : Dataset) :
    ((df_temporal ds).map Prod.fst).Sorted (· < ·)
    ∧ ∀ y : Int, (y ∈ (df_temporal ds).map Prod.fst ↔ ∃ r ∈ ds, r.anio = y) := by
  constructor
  · rw [df_temporal_map_fst]
    have hs : List.Sorted (· ≤ ·) (List.insertionSort (· ≤ ·) (uniques (ds.map Record.anio))) :=
      List.sorted_insertionSort _ _
    have hn : (List.insertionSort (· ≤ ·) (uniques (ds.map Record.anio))).Nodup :=
      (List.perm_insertionSort _ _).symm.nodup (nodup_uniques _)
    exact (hs.and hn).imp (fun h => lt_of_le_of_ne h.1 h.2)
  · exact fun _ => mem_anios_df_temporal

/-- C10: every entry of every aggregate view — the life-cycle counts, the
sex-by-life-cycle cross-tabulation, the yearly series and the
department-by-year breakdown — has a count of at least 1. -/
theorem vistas_conteos_positivos (ds : Dataset) :
    (∀ p ∈ df_ciclo ds, 1 ≤ p.2)
    ∧ (∀ p ∈ df_genero_ciclo ds, 1 ≤ p.2)
    ∧ (∀ p ∈ df_temporal ds, 1 ≤ p.2)
    ∧ (∀ p ∈ df_depto_anio ds, 1 ≤ p.2) := by
  refine ⟨?_, ?_, ?_, ?_⟩
  · intro p hp
    rw [df_ciclo] at hp
    rcases mem_value_counts.mp hp with ⟨h1, h2⟩
    rw [h2]
    exact List.count_pos_iff.mpr h1
  · intro p hp
    rw [df_genero_ciclo] at hp
    rcases List.mem_map.mp hp with ⟨k, hk, rfl⟩
    exact length_filter_key_pos ds _
      (mem_uniques.mp ((List.perm_insertionSort _ _).mem_iff.mp hk))
  · intro p hp
    rcases mem_df_temporal hp with ⟨h2, h1⟩
    rw [h2]
    exact (cuenta_pos_iff ds p.1).mpr (List.mem_map.mp h1)
  · intro p hp
    rw [df_depto_anio] at hp
    rcases List.mem_map.mp hp with ⟨k, hk, rfl⟩
    exact length_filter_key_pos ds _
      (mem_uniques.mp ((List.perm_insertionSort _ _).mem_iff.mp hk))

theorem vistas_conteos_positivos_witness :
    1 ≤ (("Adulto", 2) : String × Nat).2
    ∧ 1 ≤ ((("Adulto", "Hombre"), 1) : (String × String) × Nat).2
    ∧ 1 ≤ (((2021 : Int), 1) : Int × Nat).2
    ∧ 1 ≤ ((("Antioquia", (2021 : Int)), 1) : (String × Int) × Nat).2 :=
  ⟨(vistas_conteos_positivos dsW).1 ("Adulto", 2) (by decide),
   (vistas_conteos_positivos dsW).2.1 (("Adulto", "Hombre"), 1) (by
     rw [df_genero_ciclo]
     exact ((List.perm_insertionSort keyLex _).map _).mem_iff.mpr (by decide)),
   (vistas_conteos_positivos dsW).2.2.1 ((2021 : Int), 1) (by decide),
   (vistas_conteos_positivos dsW).2.2.2 (("Antioquia", (2021 : Int)), 1) (by
     rw [df_depto_anio]
     exact ((List.perm_insertionSort keyLex _).map _).mem_iff.mpr (by decide))⟩

/-- C1: on any decodable table that passes the schema check, the loader
returns exactly the complete rows of the input — a row with any missing cell
is dropped whole — and every returned row still carries every one of its
cells (same length as its source row, no per-cell imputation). -/
theorem cargar_datos_filtra_filas_completas (t : RawTable) (out : List (List String))
    (h : cargar_datos (some t) = Except.ok out) :
    out = (t.rows.filter rowComplete).map (fun row => row.filterMap id)
    ∧ ∀ row ∈ out, ∃ raw ∈ t.rows, rowComplete raw = true ∧ row = raw.filterMap id
        ∧ row.length = raw.length := by
  simp only [cargar_datos] at h
  by_cases hc : columnas_str.all (fun c => t.header.contains c) = true
  · rw [if_pos hc] at h
    injection h with h1
    subst h1
    refine ⟨rfl, ?_⟩
    intro row hrow
    rcases List.mem_map.mp hrow with ⟨raw, hraw, rfl⟩
    have hm := List.mem_filter.mp hraw
    exact ⟨raw, hm.1, hm.2, rfl, length_filterMap_id_of_complete raw hm.2⟩
  · rw [if_neg hc] at h
    exact Except.noConfusion h

/-- Witness: on the concrete table `t0` the loader keeps exactly the one
complete row. -/
theorem cargar_datos_filtra_filas_completas_witness :
    cargar_datos (some t0) = Except.ok [["a", "b"]]
    ∧ ([["a", "b"]] : List (List String))
        = (t0.rows.filter rowComplete).map (fun row => row.filterMap id) :=
  ⟨by rfl, (cargar_datos_filtra_filas_completas t0 [["a", "b"]] (by rfl)).1⟩

/-- C8 (amended): the loader fails with an encoding error on an undecodable
file and with a schema error when one of the six categorical columns is
missing from the header; failure yields no dataset at all.  (A missing year
column is not detected by the loader — see the counterexample.) -/
theorem cargar_datos_errores_carga :
    cargar_datos none = Except.error LoadError.encodingError
    ∧ ∀ t : RawTable, (∃ c ∈ columnas_str, t.header.contains c = false) →
        cargar_datos (some t) = Except.error LoadError.schemaError := by
  refine ⟨rfl, ?_⟩
  rintro t ⟨c, hc, hnc⟩
  have hfalse : ¬(columnas_str.all (fun x => t.header.contains x) = true) := by
    intro hall
    have hx := List.all_eq_true.mp hall c hc
    rw [hnc] at hx
    exact Bool.false_ne_true hx
  simp only [cargar_datos]
  rw [if_neg hfalse]

/-- Witness: the empty-header table misses a categorical column and the
loader rejects it with a schema error. -/
theorem cargar_datos_errores_carga_witness :
    (∃ c ∈ columnas_str, t1.header.contains c = false)
    ∧ cargar_datos (some t1) = Except.error LoadError.schemaError :=
  ⟨⟨"Ciclo Vital", by decide, by rfl⟩,
   cargar_datos_errores_carga.2 t1 ⟨"Ciclo Vital", by decide, by rfl⟩⟩

/-- Counterexample to C8 as stated: the year column is one of the required
columns, yet on a table whose header lacks exactly that column the loader
succeeds instead of failing with a schema error. -/
theorem cargar_datos_sin_anio_counterexample :
    "Año del hecho" ∈ required_columns
    ∧ "Año del hecho" ∉ tNoYear.header
    ∧ cargar_datos (some tNoYear) = Except.ok [] := by
  refine ⟨by decide, by decide, by rfl⟩

/-- C3: the department count is the number of distinct department values
other than the sentinel, while the selectable-department universe keeps the
sentinel; whenever some row carries the sentinel the two derivations differ
by exactly one category. -/
theorem num_departamentos_vs_lista_deptos (ds : Dataset) :
    num_departamentos ds
      = ((uniques (ds.map Record.departamento)).filter (fun d => d != sinInformacion)).length
    ∧ ((∃ r ∈ ds, r.departamento = sinInformacion) →
        (lista_deptos ds).length = num_departamentos ds + 1) := by
  have h1 : num_departamentos ds
      = ((uniques (ds.map Record.departamento)).filter
          (fun d => d != sinInformacion)).length := by
    rw [num_departamentos, df_con_depto]
    rw [show (fun r : Record => r.departamento != sinInformacion)
        = ((fun d => d != sinInformacion) ∘ Record.departamento) from rfl]
    rw [← List.filter_map, uniques_filter]
  refine ⟨h1, ?_⟩
  rintro ⟨r, hr, hsin⟩
  have hlen : (lista_deptos ds).length = (uniques (ds.map Record.departamento)).length :=
    (List.perm_insertionSort _ _).length_eq
  have hsinU : sinInformacion ∈ uniques (ds.map Record.departamento) :=
    mem_uniques.mpr (List.mem_map.mpr ⟨r, hr, hsin⟩)
  have hnod := nodup_uniques (ds.map Record.departamento)
  have hpart := length_filter_partition (fun d => d != sinInformacion)
      (uniques (ds.map Record.departamento))
  have hC : ((uniques (ds.map Record.departamento)).filter
      (fun d => !(d != sinInformacion))).length = 1 := by
    have hfun : (fun d : String => !(d != sinInformacion)) = (fun d => d == sinInformacion) := by
      funext d
      simp [bne]
    rw [hfun, ← List.countP_eq_length_filter, ← List.count_eq_countP]
    exact List.count_eq_one_of_mem hnod hsinU
  rw [hlen, h1, ← hpart, hC]

/-- Witness: on `dsW` the sentinel department occurs, and the selectable
universe has exactly one more category than the department count. -/
theorem num_departamentos_vs_lista_deptos_witness :
    (∃ r ∈ dsW, r.departamento = sinInformacion)
    ∧ (lista_deptos dsW).length = num_departamentos dsW + 1 :=
  ⟨by decide, (num_departamentos_vs_lista_deptos dsW).2 (by decide)⟩

/-- C4: with the unreported-reasons toggle off, the reactive reason view
never contains the sentinel; and for either toggle state the view equals the
top-10 reason counts over the rows surviving the two equality filters —
applied to the rows before counting, with the all-selection `Todos` meaning
no filter on that dimension. -/
theorem df_razones_dinamico_filtros (ds : Dataset) (cicloSel generoSel : String) :
    (∀ p ∈ df_razones_dinamico ds cicloSel generoSel false, p.1 ≠ sinInformacion)
    ∧ ∀ b : Bool, df_razones_dinamico ds cicloSel generoSel b
        = (value_counts (((ds.filter (fun r =>
              (generoSel == "Todos" || r.sexo == generoSel)
              && (cicloSel == "Todos" || r.cicloVital == cicloSel))).filter
              (fun r => b || r.razon != sinInformacion)).map Record.razon)).take 10 := by
  have hciclo : (if cicloSel = "Todos" then ds
      else ds.filter (fun r => r.cicloVital == cicloSel))
      = ds.filter (fun r => cicloSel == "Todos" || r.cicloVital == cicloSel) := by
    by_cases h : cicloSel = "Todos"
    · subst h
      simp
    · have hb : (cicloSel == "Todos") = false := by simpa using h
      simp [if_neg h, hb]
  have hgenero : ∀ l : Dataset, (if generoSel = "Todos" then l
      else l.filter (fun r => r.sexo == generoSel))
      = l.filter (fun r => generoSel == "Todos" || r.sexo == generoSel) := by
    intro l
    by_cases h : generoSel = "Todos"
    · subst h
      simp
    · have hb : (generoSel == "Todos") = false := by simpa using h
      simp [if_neg h, hb]
  have hEq : ∀ b : Bool, df_razones_dinamico ds cicloSel generoSel b
      = (value_counts (((ds.filter (fun r =>
            (generoSel == "Todos" || r.sexo == generoSel)
            && (cicloSel == "Todos" || r.cicloVital == cicloSel))).filter
            (fun r => b || r.razon != sinInformacion)).map Record.razon)).take 10 := by
    intro b
    simp only [df_razones_dinamico]
    rw [hciclo, hgenero]
    cases b
    · simp only [List.filter_filter, Bool.false_or, Bool.false_eq_true, if_false]
    · simp only [List.filter_filter, Bool.true_or, Bool.true_and, List.filter_true, if_true]
  refine ⟨?_, hEq⟩
  intro p hp
  rw [hEq false] at hp
  have hp2 := List.take_subset _ _ hp
  rcases mem_value_counts.mp hp2 with ⟨h1, _⟩
  rcases List.mem_map.mp h1 with ⟨r, hr, hraz⟩
  have hne : r.razon ≠ sinInformacion := by
    have hx := (List.mem_filter.mp hr).2
    simpa using hx
  exact fun hps => hne (hraz.trans hps)

/-- Witness: on `dsW` with both selections at `Todos` and the toggle off, the
top reason entry is not the sentinel. -/
theorem df_razones_dinamico_filtros_witness :
    (("Conflicto de pareja", 1) : String × Nat).1 ≠ sinInformacion :=
  (df_razones_dinamico_filtros dsW "Todos" "Todos").1 ("Conflicto de pareja", 1) (by decide)

/-- C9 (amended): the counts of `value_counts` are ordered descending, and
the entries kept by a top-N truncation dominate every omitted entry by
count. -/
theorem value_counts_orden_descendente (vals : List String) (n : Nat) :
    ((value_counts vals).map Prod.snd).Sorted (fun a b => b ≤ a)
    ∧ ∀ p ∈ (value_counts vals).take n, ∀ q ∈ (value_counts vals).drop n, q.2 ≤ p.2 := by
  have hs : List.Sorted countDesc (value_counts vals) :=
    List.sorted_insertionSort countDesc _
  constructor
  · exact List.Pairwise.map Prod.snd (fun a b h => h) hs
  · intro p hp q hq
    have hpw : List.Pairwise countDesc
        ((value_counts vals).take n ++ (value_counts vals).drop n) := by
      rw [List.take_append_drop]
      exact hs
    exact (List.pairwise_append.mp hpw).2.2 p hp q hq

/-- Witness: in the counts of `a, a, b` the kept top-1 entry dominates the
dropped entry. -/
theorem value_counts_orden_descendente_witness :
    (("b", 1) : String × Nat).2 ≤ (("a", 2) : String × Nat).2 :=
  (value_counts_orden_descendente ["a", "a", "b"] 1).2 ("a", 2) (by decide) ("b", 1) (by decide)

/-- Counterexample to C9 as stated: on a dataset with two scene values tied
in count, the source orders ties by first appearance in the data, not by
ascending key as the claim prescribes. -/
theorem value_counts_desempate_counterexample :
    df_escenario dsC9 = [("b", 1), ("a", 1)]
    ∧ (value_counts_spec (dsC9.map Record.escenario)).take 10 = [("a", 1), ("b", 1)]
    ∧ df_escenario dsC9 ≠ (value_counts_spec (dsC9.map Record.escenario)).take 10 := by
  refine ⟨by decide, by decide, by decide⟩

end App
